import Mathlib

/-!
Shallow embedding of `ply/git/cmd.py`: a command layer over the external
`git` tool (eight subcommands, each building an argument vector and
spawning a child process) plus a `Repo` facade performing a scoped
working-directory switch around every delegated call.

The external process is modelled by an environment `Proc` mapping the
current working directory and the argument vector to the child's exit
status and captured standard output.  Spawning is made observable by
returning, next to the `Except` outcome, the list of argument vectors
actually passed to the process-spawn primitive during the call.
-/

/-- Error taxonomy: `subprocess.CalledProcessError` (raised by
`subprocess.check_call` on a non-zero exit), and the three exception
classes of `ply.git.exc` as used by `cmd.py`:
`PatchDidNotApplyCleanly` (no payload), `MutuallyIncompatibleOptions`
(message string), `GitException` (tuple of return code, stdout, stderr). -/
inductive PyExc where
  | CalledProcessError (returncode : Int) (cmd : List String)
  | PatchDidNotApplyCleanly
  | MutuallyIncompatibleOptions (msg : String)
  | GitException (returncode : Int) (stdout : String) (stderr : Option String)
deriving Repr, DecidableEq

/-- Execution environment: given the process's current working directory
and an argument vector, yields the child's exit status and its standard
output (ignored by non-capturing calls). -/
abbrev Proc := String → List String → Int × String

/-- Truthiness of an optional Python string: `None` and `""` are falsy. -/
def pyTruthy : Option String → Bool
  | none => false
  | some s => s ≠ ""

/-- `subprocess.check_call(args)`: spawn, wait, raise
`CalledProcessError` on non-zero exit.  The second component records the
single spawned argument vector. -/
def check_call (env : Proc) (cwd : String) (args : List String) :
    Except PyExc Unit × List (List String) :=
  let r := env cwd args
  (if r.1 = 0 then .ok () else .error (.CalledProcessError r.1 args), [args])

/-- Argument vector of `add(filename)`. -/
def addArgs (filename : String) : List String :=
  ["git", "add", filename]

/-- `add(filename)`. -/
def add (env : Proc) (cwd : String) (filename : String) :
    Except PyExc Unit × List (List String) :=
  check_call env cwd (addArgs filename)

/-- Argument vector of `am`: `['git', 'am']`, then the positional patch
paths, then (in this order) `--3way` if `three_way_merge`, `--resolved`
if `resolved`, `-q` if `quiet`. -/
def amArgs (patch_paths : List String)
    (three_way_merge resolved quiet : Bool) : List String :=
  ["git", "am"] ++ patch_paths
    ++ (if three_way_merge then ["--3way"] else [])
    ++ (if resolved then ["--resolved"] else [])
    ++ (if quiet then ["-q"] else [])

/-- `am(*patch_paths, **kwargs)`: `check_call`, with
`CalledProcessError` re-raised as `PatchDidNotApplyCleanly`. -/
def am (env : Proc) (cwd : String) (patch_paths : List String)
    (three_way_merge resolved quiet : Bool) :
    Except PyExc Unit × List (List String) :=
  let r := check_call env cwd (amArgs patch_paths three_way_merge resolved quiet)
  (match r.1 with
   | .ok u => .ok u
   | .error _ => .error .PatchDidNotApplyCleanly, r.2)

/-- Argument vector of `checkout`: `['git', 'checkout']`, `-b` if
`create`, `-B` if `create_and_reset`, then the branch name. -/
def checkoutArgs (branch_name : String) (create create_and_reset : Bool) :
    List String :=
  ["git", "checkout"]
    ++ (if create then ["-b"] else [])
    ++ (if create_and_reset then ["-B"] else [])
    ++ [branch_name]

/-- `checkout(branch_name, create=False, create_and_reset=False)`:
raises `MutuallyIncompatibleOptions` before any spawn when both modes
are requested. -/
def checkout (env : Proc) (cwd : String) (branch_name : String)
    (create create_and_reset : Bool) :
    Except PyExc Unit × List (List String) :=
  if create && create_and_reset then
    (.error (.MutuallyIncompatibleOptions "create and create_and_reset"), [])
  else
    check_call env cwd (checkoutArgs branch_name create create_and_reset)

/-- Argument vector of `commit`: `['git', 'commit']`; `-m msg` when
`msg is not None`; `-a` if `all`; `--amend` if `amend`;
`-C use_commit_object` when that argument is truthy (non-`None` and
non-empty); `-q` if `quiet`. -/
def commitArgs (msg : Option String) (all amend : Bool)
    (use_commit_object : Option String) (quiet : Bool) : List String :=
  ["git", "commit"]
    ++ (match msg with | some m => ["-m", m] | none => [])
    ++ (if all then ["-a"] else [])
    ++ (if amend then ["--amend"] else [])
    ++ (if pyTruthy use_commit_object then ["-C", use_commit_object.getD ""] else [])
    ++ (if quiet then ["-q"] else [])

/-- `commit(msg, all=False, amend=False, use_commit_object=None, quiet=False)`. -/
def commit (env : Proc) (cwd : String) (msg : Option String)
    (all amend : Bool) (use_commit_object : Option String) (quiet : Bool) :
    Except PyExc Unit × List (List String) :=
  check_call env cwd (commitArgs msg all amend use_commit_object quiet)

/-- Split a character list at every occurrence of `sep`, keeping empty
segments — the semantics of Python's `str.split(sep)` for a one-character
separator (structurally recursive so that it evaluates). -/
def splitOnChar (sep : Char) : List Char → List (List Char)
  | [] => [[]]
  | c :: cs =>
    match splitOnChar sep cs with
    | [] => if c = sep then [[], []] else [[c]]
    | r :: rs => if c = sep then [] :: r :: rs else (c :: r) :: rs

/-- Python `s.split(sep)` for a one-character separator:
`"".split(sep) = [""]`, and a trailing separator yields a trailing
empty segment. -/
def pySplit (s : String) (sep : Char) : List String :=
  (splitOnChar sep s.data).map List.asString

/-- Python character-class used by `str.strip()` with no argument. -/
def pyIsSpace (c : Char) : Bool :=
  c = ' ' || c = '\t' || c = '\n' || c = '\x0d' || c = '\x0b' || c = '\x0c'

/-- Python `s.strip()`: remove leading and trailing whitespace. -/
def pyStrip (s : String) : String :=
  ⟨((s.data.dropWhile pyIsSpace).reverse.dropWhile pyIsSpace).reverse⟩

/-- The post-processing of `format_patch`:
`[line.strip() for line in stdout.split('\n') if line]`. -/
def formatPatchFilenames (stdout : String) : List String :=
  ((pySplit stdout '\n').filter (fun line => line ≠ "")).map pyStrip

/-- Argument vector of `format_patch(since)`. -/
def formatPatchArgs (since : String) : List String :=
  ["git", "format-patch", since]

/-- `format_patch(since)`: captures stdout via `Popen`/`communicate`
(stderr is not piped, hence `None`); non-zero exit raises
`GitException((returncode, stdout, stderr))`; otherwise returns the list
of stripped non-empty lines of stdout. -/
def format_patch (env : Proc) (cwd : String) (since : String) :
    Except PyExc (List String) × List (List String) :=
  let args := formatPatchArgs since
  let r := env cwd args
  (if r.1 ≠ 0 then .error (.GitException r.1 r.2 none)
   else .ok (formatPatchFilenames r.2), [args])

/-- Argument vector of `init(directory, quiet=False)`: `-q` precedes the
positional directory. -/
def initArgs (directory : String) (quiet : Bool) : List String :=
  ["git", "init"] ++ (if quiet then ["-q"] else []) ++ [directory]

/-- `init(directory, quiet=False)`. -/
def init (env : Proc) (cwd : String) (directory : String) (quiet : Bool) :
    Except PyExc Unit × List (List String) :=
  check_call env cwd (initArgs directory quiet)

/-- Argument vector of `log`: `['git', 'log']`; `--pretty=<p>` when
`pretty` is truthy; `-<count>` when `count is not None`;
`--skip=<skip>` when `skip is not None`; the trailing positional
`cmd_arg` when truthy. -/
def logArgs (cmd_arg : Option String) (count : Option Int)
    (pretty : Option String) (skip : Option Int) : List String :=
  ["git", "log"]
    ++ (if pyTruthy pretty then ["--pretty=" ++ pretty.getD ""] else [])
    ++ (match count with | some n => ["-" ++ toString n] | none => [])
    ++ (match skip with | some n => ["--skip=" ++ toString n] | none => [])
    ++ (if pyTruthy cmd_arg then [cmd_arg.getD ""] else [])

/-- `log(cmd_arg=None, count=None, pretty=None, skip=None)`: captures
stdout; non-zero exit raises `GitException`; otherwise returns the raw
captured stdout. -/
def log (env : Proc) (cwd : String) (cmd_arg : Option String)
    (count : Option Int) (pretty : Option String) (skip : Option Int) :
    Except PyExc String × List (List String) :=
  let args := logArgs cmd_arg count pretty skip
  let r := env cwd args
  (if r.1 ≠ 0 then .error (.GitException r.1 r.2 none)
   else .ok r.2, [args])

/-- Argument vector of `reset(commit, hard=False, quiet=False)`: the
positional commit comes right after the subcommand, flags follow. -/
def resetArgs (commit : String) (hard quiet : Bool) : List String :=
  ["git", "reset", commit]
    ++ (if hard then ["--hard"] else [])
    ++ (if quiet then ["-q"] else [])

/-- `reset(commit, hard=False, quiet=False)`. -/
def reset (env : Proc) (cwd : String) (commit : String)
    (hard quiet : Bool) : Except PyExc Unit × List (List String) :=
  check_call env cwd (resetArgs commit hard quiet)

/-- One invocation of one of the eight operations, with its arguments. -/
inductive OpCall where
  | add (filename : String)
  | am (patch_paths : List String) (three_way_merge resolved quiet : Bool)
  | checkout (branch_name : String) (create create_and_reset : Bool)
  | commit (msg : Option String) (all amend : Bool)
      (use_commit_object : Option String) (quiet : Bool)
  | format_patch (since : String)
  | init (directory : String) (quiet : Bool)
  | log (cmd_arg : Option String) (count : Option Int)
      (pretty : Option String) (skip : Option Int)
  | reset (commit : String) (hard quiet : Bool)
deriving Repr, DecidableEq

/-- Return value of an operation: `None` (the `check_call` operations),
a list of filenames (`format_patch`), or raw captured output (`log`). -/
inductive OpResult where
  | none
  | filenames (l : List String)
  | output (s : String)
deriving Repr, DecidableEq

/-- Dispatch an `OpCall` to the corresponding module-level function,
in working directory `cwd`. -/
def runOp (env : Proc) (cwd : String) :
    OpCall → Except PyExc OpResult × List (List String)
  | .add f =>
    let r := add env cwd f
    (r.1.map fun _ => .none, r.2)
  | .am pp t rv q =>
    let r := am env cwd pp t rv q
    (r.1.map fun _ => .none, r.2)
  | .checkout b c cr =>
    let r := checkout env cwd b c cr
    (r.1.map fun _ => .none, r.2)
  | .commit m al amd uco q =>
    let r := commit env cwd m al amd uco q
    (r.1.map fun _ => .none, r.2)
  | .format_patch s =>
    let r := format_patch env cwd s
    (r.1.map .filenames, r.2)
  | .init d q =>
    let r := init env cwd d q
    (r.1.map fun _ => .none, r.2)
  | .log ca cnt p sk =>
    let r := log env cwd ca cnt p sk
    (r.1.map .output, r.2)
  | .reset c h q =>
    let r := reset env cwd c h q
    (r.1.map fun _ => .none, r.2)

/-- The argument vector an `OpCall` hands to the spawn primitive
(for `checkout`, the vector built when the incompatible-options check
passes). -/
def opArgs : OpCall → List String
  | .add f => addArgs f
  | .am pp t rv q => amArgs pp t rv q
  | .checkout b c cr => checkoutArgs b c cr
  | .commit m al amd uco q => commitArgs m al amd uco q
  | .format_patch s => formatPatchArgs s
  | .init d q => initArgs d q
  | .log ca cnt p sk => logArgs ca cnt p sk
  | .reset c h q => resetArgs c h q

/-- The git subcommand name of an `OpCall`. -/
def subcommandOf : OpCall → String
  | .add _ => "add"
  | .am _ _ _ _ => "am"
  | .checkout _ _ _ => "checkout"
  | .commit _ _ _ _ _ => "commit"
  | .format_patch _ => "format-patch"
  | .init _ _ => "init"
  | .log _ _ _ _ => "log"
  | .reset _ _ _ => "reset"

/-- The flag tokens of an `OpCall` (value tokens attached to their
flags), in the order the source appends them. -/
def opFlags : OpCall → List String
  | .add _ => []
  | .am _ t rv q =>
    (if t then ["--3way"] else []) ++ (if rv then ["--resolved"] else [])
      ++ (if q then ["-q"] else [])
  | .checkout _ c cr =>
    (if c then ["-b"] else []) ++ (if cr then ["-B"] else [])
  | .commit m al amd uco q =>
    (match m with | some s => ["-m", s] | none => [])
      ++ (if al then ["-a"] else []) ++ (if amd then ["--amend"] else [])
      ++ (if pyTruthy uco then ["-C", uco.getD ""] else [])
      ++ (if q then ["-q"] else [])
  | .format_patch _ => []
  | .init _ q => if q then ["-q"] else []
  | .log _ cnt p sk =>
    (if pyTruthy p then ["--pretty=" ++ p.getD ""] else [])
      ++ (match cnt with | some n => ["-" ++ toString n] | none => [])
      ++ (match sk with | some n => ["--skip=" ++ toString n] | none => [])
  | .reset _ h q =>
    (if h then ["--hard"] else []) ++ (if q then ["-q"] else [])

/-- The positional arguments of an `OpCall`, in order. -/
def opPositionals : OpCall → List String
  | .add f => [f]
  | .am pp _ _ _ => pp
  | .checkout b _ _ => [b]
  | .commit _ _ _ _ _ => []
  | .format_patch s => [s]
  | .init d _ => [d]
  | .log ca _ _ _ => if pyTruthy ca then [ca.getD ""] else []
  | .reset c _ _ => [c]

/-- The calls whose positionals come directly after the subcommand, with
the flags appended after them: `am` and `reset`. -/
def positionalsFirst : OpCall → Bool
  | .am _ _ _ _ => true
  | .reset _ _ _ => true
  | _ => false

/-- `os.path.isabs` on POSIX: the path starts with a slash. -/
def isabs (p : String) : Bool :=
  p.data.take 1 = ['/']

/-- `os.path.join(a, b)` on POSIX, for two components. -/
def pyJoin (a b : String) : String :=
  if isabs b then b
  else if a = "" || a.data.getLast? = some '/' then a ++ b
  else a ++ "/" ++ b

/-- The component loop of `posixpath.normpath`: drop `''` and `'.'`,
resolve `'..'` against the accumulated components. -/
def normComps (initial_slashes : Bool) (comps : List String) : List String :=
  comps.foldl
    (fun acc comp =>
      if comp = "" ∨ comp = "." then acc
      else if comp ≠ ".." ∨ (¬ initial_slashes ∧ acc = [])
          ∨ acc.getLast? = some ".." then
        acc ++ [comp]
      else if acc ≠ [] then acc.dropLast
      else acc)
    []

/-- `posixpath.normpath(path)`: collapse repeated slashes and `.`/`..`
components; one or two leading slashes are preserved, three or more
become one. -/
def normpath (path : String) : String :=
  if path = "" then "."
  else
    let initial_slashes : Nat :=
      if isabs path then
        if path.data.take 2 = ['/', '/'] ∧ ¬ path.data.take 3 = ['/', '/', '/']
        then 2 else 1
      else 0
    let comps := pySplit path '/'
    let joined := String.intercalate "/" (normComps (initial_slashes ≠ 0) comps)
    let result := List.asString (List.replicate initial_slashes '/') ++ joined
    if result = "" then "." else result

/-- `os.path.abspath(path)`: join onto the current working directory
when the path is relative, then normalize. -/
def abspath (cwd path : String) : String :=
  if ¬ isabs path then normpath (pyJoin cwd path) else normpath path

/-- The process-global state the Repo facade manipulates: the ambient
working directory, plus the path attribute stored on the Repo instance
(`self.path`). -/
structure RepoWorld where
  cwd : String
  repoPath : String
deriving Repr, DecidableEq

/-- `Repo.__init__(path)`: store `os.path.abspath(path)` and bind the
wrapped operations.  Construction spawns no process and leaves the
working directory untouched; the returned trace is the list of argument
vectors spawned during construction. -/
def repoInit (cwd : String) (path : String) : RepoWorld × List (List String) :=
  ({ cwd := cwd, repoPath := abspath cwd path }, [])

/-- The `Repo.chdir` context manager wrapped around a body, as done by
`_with_temporary_chdir`: record `os.getcwd()`, `os.chdir(self.path)`,
run the body, and in the `finally` block `os.chdir(orig_path)` — the
restoration runs whether the body returns or raises. -/
def chdirScoped (repoPath : String) (w : RepoWorld)
    (body : RepoWorld → Except PyExc OpResult × RepoWorld × List (List String)) :
    Except PyExc OpResult × RepoWorld × List (List String) :=
  let orig_path := w.cwd
  let w1 := { w with cwd := repoPath }
  let r := body w1
  (r.1, { r.2.1 with cwd := orig_path }, r.2.2)

/-- Invoking one wrapped operation through the Repo facade: the
underlying module-level function runs with the ambient working directory
switched to the stored path, and does not itself touch the stored path
or the working directory. -/
def repoCall (env : Proc) (w : RepoWorld) (c : OpCall) :
    Except PyExc OpResult × RepoWorld × List (List String) :=
  chdirScoped w.repoPath w
    (fun w1 =>
      let r := runOp env w1.cwd c
      (r.1, w1, r.2))


/-- How one option is rendered into argument-vector tokens: a boolean
flag (token exactly when true), a value flag (flag token then value
token, two entries), or a combined flag (value embedded in one token). -/
inductive FlagSpec where
  | boolFlag (token : String) (value : Bool)
  | valueFlag (token : String) (value : Option String)
  | combinedFlag (token : String) (value : Option String)
deriving Repr, DecidableEq

/-- Tokens contributed by one `FlagSpec`. -/
def renderFlag : FlagSpec → List String
  | .boolFlag t b => if b then [t] else []
  | .valueFlag t v => match v with | some s => [t, s] | none => []
  | .combinedFlag t v => match v with | some s => [t ++ s] | none => []

/-- Appending anything to an absolute path keeps it absolute. -/
theorem isabs_append (a b : String) (h : isabs a = true) :
    isabs (a ++ b) = true := by
  rcases a with ⟨l⟩
  rcases l with _ | ⟨c, cs⟩
  · simp [isabs] at h
  · simp only [isabs, decide_eq_true_eq, List.take] at h ⊢
    exact h

/-- A string starting with a slash is absolute. -/
theorem isabs_slash_mk (l : List Char) (s : String) :
    isabs (List.asString ('/' :: l) ++ s) = true := by
  simp only [isabs, decide_eq_true_eq]
  rfl

/-- A string starting with a slash is non-empty. -/
theorem slash_mk_append_ne_empty (l : List Char) (s : String) :
    ¬ (List.asString ('/' :: l) ++ s) = "" := by
  intro e
  have hd : (List.asString ('/' :: l) ++ s).data = ("" : String).data :=
    congrArg String.data e
  simp only [String.data] at hd
  exact List.noConfusion hd

/-- `normpath` of an absolute path is absolute. -/
theorem isabs_normpath (p : String) (h : isabs p = true) :
    isabs (normpath p) = true := by
  have hne : p ≠ "" := by
    intro e
    rw [e] at h
    exact absurd h (by decide)
  simp only [normpath, hne, if_false, h, if_true, ite_false, ite_true]
  by_cases hc : p.data.take 2 = ['/', '/'] ∧ ¬ p.data.take 3 = ['/', '/', '/']
  · rw [if_pos hc]
    have hrep : List.replicate 2 '/' = ['/', '/'] := rfl
    rw [hrep, if_neg (slash_mk_append_ne_empty _ _)]
    exact isabs_slash_mk _ _
  · rw [if_neg hc]
    have hrep : List.replicate 1 '/' = ['/'] := rfl
    rw [hrep, if_neg (slash_mk_append_ne_empty _ _)]
    exact isabs_slash_mk _ _

/-- `abspath` against an absolute working directory is absolute. -/
theorem isabs_abspath (cwd p : String) (h : isabs cwd = true) :
    isabs (abspath cwd p) = true := by
  unfold abspath
  by_cases hp : isabs p
  · simp only [hp, not_true, ite_false, if_false, Bool.not_eq_true]
    exact isabs_normpath p hp
  · simp only [hp, Bool.not_eq_true, ite_true, if_true]
    apply isabs_normpath
    unfold pyJoin
    rw [if_neg (by simp [hp])]
    by_cases hq : cwd = "" || cwd.data.getLast? = some '/'
    · rw [if_pos hq]
      exact isabs_append cwd p h
    · rw [if_neg hq]
      exact isabs_append _ _ (isabs_append cwd "/" h)

/-- C1: for every operation invoked through a Repo bound to path P, the
process working directory after the call equals its value from before
the call; the quantification over `OpCall` and over the environment `env`
covers every outcome, including every raising one — the restoration in
the `finally` block of `Repo.chdir` is on no failure path skippable. -/
theorem repoCall_restores_cwd (env : Proc) (w : RepoWorld) (c : OpCall) :
    ((repoCall env w c).2.1).cwd = w.cwd := rfl

/-- C2: `checkout` with both `create = true` and `create_and_reset =
true` raises `MutuallyIncompatibleOptions` and spawns no process (the
spawn trace is empty), both at the module level and through a Repo. -/
theorem checkout_both_create_modes_raise_without_spawn
    (env : Proc) (cwd branch_name : String) (w : RepoWorld) :
    checkout env cwd branch_name true true
      = (Except.error (PyExc.MutuallyIncompatibleOptions "create and create_and_reset"), [])
    ∧ (repoCall env w (OpCall.checkout branch_name true true)).1
        = Except.error (PyExc.MutuallyIncompatibleOptions "create and create_and_reset")
    ∧ (repoCall env w (OpCall.checkout branch_name true true)).2.2 = [] :=
  ⟨rfl, rfl, rfl⟩

/-- C3: every non-zero exit status of the process spawned by `am` —
whatever its value — yields `PatchDidNotApplyCleanly`, a failure that by
its type carries no exit code or output, never the generic
`CalledProcessError` or `GitException`; a zero exit returns normally. -/
theorem am_exit_status_classification (env : Proc) (cwd : String)
    (patch_paths : List String) (three_way_merge resolved quiet : Bool) :
    ((env cwd (amArgs patch_paths three_way_merge resolved quiet)).1 ≠ 0 →
      (am env cwd patch_paths three_way_merge resolved quiet).1
        = Except.error PyExc.PatchDidNotApplyCleanly)
    ∧ ((env cwd (amArgs patch_paths three_way_merge resolved quiet)).1 = 0 →
      (am env cwd patch_paths three_way_merge resolved quiet).1
        = Except.ok ()) := by
  constructor <;> intro h <;> simp [am, check_call, h]

/-- Witness for C3: a concrete environment exiting 128 yields the
patch-application-conflict failure, and one exiting 0 returns normally. -/
theorem am_exit_status_classification_witness :
    (am (fun _ _ => ((128 : Int), "")) "/" ["a.patch"] false false false).1
      = Except.error PyExc.PatchDidNotApplyCleanly
    ∧ (am (fun _ _ => ((0 : Int), "")) "/" ["a.patch"] false false false).1
      = Except.ok () :=
  ⟨(am_exit_status_classification (fun _ _ => ((128 : Int), "")) "/"
      ["a.patch"] false false false).1 (by decide),
   (am_exit_status_classification (fun _ _ => ((0 : Int), "")) "/"
      ["a.patch"] false false false).2 rfl⟩

/-- C9: Repo construction stores `abspath` of the given path — an
absolute path whenever the ambient working directory is absolute —
spawns no process and leaves the working directory unchanged; the stored
path attribute is unchanged by any operation invoked through the Repo. -/
theorem repo_path_resolved_once_and_immutable
    (cwd path : String) (env : Proc) (w : RepoWorld) (c : OpCall) :
    (repoInit cwd path).2 = []
    ∧ ((repoInit cwd path).1).cwd = cwd
    ∧ ((repoInit cwd path).1).repoPath = abspath cwd path
    ∧ (isabs cwd = true → isabs ((repoInit cwd path).1).repoPath = true)
    ∧ ((repoCall env w c).2.1).repoPath = w.repoPath :=
  ⟨rfl, rfl, rfl, fun h => isabs_abspath cwd path h, rfl⟩

/-- Witness for C9 at a concrete construction and call. -/
theorem repo_path_resolved_once_and_immutable_witness :
    (repoInit "/home/u" "proj").2 = []
    ∧ ((repoInit "/home/u" "proj").1).cwd = "/home/u"
    ∧ ((repoInit "/home/u" "proj").1).repoPath = abspath "/home/u" "proj"
    ∧ isabs ((repoInit "/home/u" "proj").1).repoPath = true
    ∧ ((repoCall (fun _ _ => ((0 : Int), "")) (RepoWorld.mk "/" "/r")
        (OpCall.add "f")).2.1).repoPath = "/r" := by
  have h := repo_path_resolved_once_and_immutable "/home/u" "proj"
    (fun _ _ => ((0 : Int), "")) (RepoWorld.mk "/" "/r") (OpCall.add "f")
  exact ⟨h.1, h.2.1, h.2.2.1, h.2.2.2.1 (by decide), h.2.2.2.2⟩

/-- C10: `count` and `skip` are tested against `None`, so zero values
still contribute their tokens `-0` and `--skip=0`; `pretty` and
`cmd_arg` are tested by truthiness, so an empty string for either
contributes no token — the vector is the same as with `None`. -/
theorem log_zero_counts_kept_empty_strings_dropped
    (cmd_arg pretty : Option String) (count skip : Option Int) :
    "-0" ∈ logArgs cmd_arg (some 0) pretty (some 0)
    ∧ "--skip=0" ∈ logArgs cmd_arg (some 0) pretty (some 0)
    ∧ logArgs (some "") count (some "") skip = logArgs none count none skip := by
  refine ⟨?_, ?_, ?_⟩
  · simp only [logArgs, List.append_assoc, List.mem_append]
    exact Or.inr (Or.inr (Or.inl (by decide)))
  · simp only [logArgs, List.append_assoc, List.mem_append]
    exact Or.inr (Or.inr (Or.inr (Or.inl (by decide))))
  · simp [logArgs, pyTruthy]

/-- C7: `log(count=3, pretty="oneline", skip=2)` builds exactly the
vector `["git", "log", "--pretty=oneline", "-3", "--skip=2"]` — hence a
vector ending in those three tokens in that order — and on a zero exit
returns the captured standard output unmodified. -/
theorem log_count3_oneline_skip2 (env : Proc) (cwd : String)
    (h : (env cwd ["git", "log", "--pretty=oneline", "-3", "--skip=2"]).1 = 0) :
    logArgs none (some 3) (some "oneline") (some 2)
      = ["git", "log", "--pretty=oneline", "-3", "--skip=2"]
    ∧ (log env cwd none (some 3) (some "oneline") (some 2)).1
      = Except.ok (env cwd ["git", "log", "--pretty=oneline", "-3", "--skip=2"]).2 := by
  have hv : logArgs none (some 3) (some "oneline") (some 2)
      = ["git", "log", "--pretty=oneline", "-3", "--skip=2"] := by decide
  refine ⟨hv, ?_⟩
  simp only [log, hv, h]
  simp

/-- Witness for C7: with an environment exiting 0 with output `"RAW"`,
the call returns `"RAW"` unmodified. -/
theorem log_count3_oneline_skip2_witness :
    logArgs none (some 3) (some "oneline") (some 2)
      = ["git", "log", "--pretty=oneline", "-3", "--skip=2"]
    ∧ (log (fun _ _ => ((0 : Int), "RAW")) "/" none (some 3) (some "oneline") (some 2)).1
      = Except.ok "RAW" :=
  log_count3_oneline_skip2 (fun _ _ => ((0 : Int), "RAW")) "/" rfl

/-- C8: with `msg = None` the vector is the message-free vector (no
`-m msg` segment: it equals `["git", "commit"]` followed directly by the
remaining option tokens, and — as long as no other value collides with
the literal — contains no `-m` token at all); with a message present,
`-m` and the message are inserted right after the subcommand. -/
theorem commit_msg_flag_presence (m : String) (all amend : Bool)
    (use_commit_object : Option String) (quiet : Bool)
    (h : use_commit_object ≠ some "-m") :
    commitArgs (some m) all amend use_commit_object quiet
      = ["git", "commit", "-m", m]
        ++ (commitArgs none all amend use_commit_object quiet).drop 2
    ∧ "-m" ∉ commitArgs none all amend use_commit_object quiet := by
  constructor
  · simp [commitArgs]
  · rcases use_commit_object with _ | s
    · cases all <;> cases amend <;> cases quiet <;> simp [commitArgs, pyTruthy]
    · have hs : s ≠ "-m" := fun e => h (by rw [e])
      by_cases he : s = "" <;>
        cases all <;> cases amend <;> cases quiet <;>
          simp [commitArgs, pyTruthy, he, hs, Ne.symm hs]

/-- Witness for C8 at a concrete call. -/
theorem commit_msg_flag_presence_witness :
    commitArgs (some "x") true false (some "c0ffee") true
      = ["git", "commit", "-m", "x"]
        ++ (commitArgs none true false (some "c0ffee") true).drop 2
    ∧ "-m" ∉ commitArgs none true false (some "c0ffee") true :=
  commit_msg_flag_presence "x" true false (some "c0ffee") true (by decide)

/-- Counterexample to C4 as stated: at the valid call
`am('a.patch', three_way_merge=True)` the constructed vector is
`["git", "am", "a.patch", "--3way"]` — the flag comes after the
positional — so it is not of the form subcommand-then-flags-then-
positionals. -/
theorem am_flag_after_positional_counterexample :
    opArgs (OpCall.am ["a.patch"] true false false)
      = ["git", "am", "a.patch", "--3way"]
    ∧ ¬ opArgs (OpCall.am ["a.patch"] true false false)
        = ["git", subcommandOf (OpCall.am ["a.patch"] true false false)]
          ++ opFlags (OpCall.am ["a.patch"] true false false)
          ++ opPositionals (OpCall.am ["a.patch"] true false false) := by
  decide

/-- C4 amended: every constructed vector starts with the program name
and the subcommand name; for all operations except `am` and `reset` the
flag tokens follow and the positional arguments come last, while for
`am` and `reset` the positional arguments directly follow the subcommand
and the flag tokens come last. -/
theorem opArgs_shape (c : OpCall) :
    opArgs c = ["git", subcommandOf c]
      ++ (if positionalsFirst c then opPositionals c ++ opFlags c
          else opFlags c ++ opPositionals c) := by
  cases c <;>
    simp [opArgs, addArgs, amArgs, checkoutArgs, commitArgs,
      formatPatchArgs, initArgs, logArgs, resetArgs, subcommandOf,
      opFlags, opPositionals, positionalsFirst, List.append_assoc]

/-- Counterexample to C5 as stated: the `pretty` option of `log` is a
value option, yet it is rendered as the single combined token
`--pretty=oneline`, not as a flag token followed by a value token —
and `pretty` is not among the claim's exceptions (numeric count, skip
offset). -/
theorem log_pretty_combined_token_counterexample :
    logArgs none none (some "oneline") none = ["git", "log", "--pretty=oneline"]
    ∧ ¬ logArgs none none (some "oneline") none
        = ["git", "log"] ++ renderFlag (FlagSpec.valueFlag "--pretty" (some "oneline")) := by
  decide

/-- C5 amended: uniformly across the eight operations, a boolean option
contributes its flag token exactly when true; a set value option (for
`use_commit_object` and `pretty`, set means a non-empty string, their
presence being tested by truthiness) contributes a flag token followed
by its value as two separate entries — except the numeric count, the
skip offset AND the pretty format of `log`, each rendered as one
combined token. -/
theorem flag_rendering_uniform (filename : String) (patch_paths : List String)
    (t rv q1 : Bool) (branch_name : String) (c cr : Bool)
    (msg : Option String) (al amd : Bool) (uco : Option String) (q2 : Bool)
    (since directory : String) (q3 : Bool) (cmd_arg : Option String)
    (count : Option Int) (pretty : Option String) (skip : Option Int)
    (cm : String) (hd q4 : Bool)
    (hu : uco ≠ some "") (hp : pretty ≠ some "") :
    addArgs filename = ["git", "add"] ++ [filename]
    ∧ amArgs patch_paths t rv q1
      = ["git", "am"] ++ patch_paths ++ renderFlag (.boolFlag "--3way" t)
        ++ renderFlag (.boolFlag "--resolved" rv) ++ renderFlag (.boolFlag "-q" q1)
    ∧ checkoutArgs branch_name c cr
      = ["git", "checkout"] ++ renderFlag (.boolFlag "-b" c)
        ++ renderFlag (.boolFlag "-B" cr) ++ [branch_name]
    ∧ commitArgs msg al amd uco q2
      = ["git", "commit"] ++ renderFlag (.valueFlag "-m" msg)
        ++ renderFlag (.boolFlag "-a" al) ++ renderFlag (.boolFlag "--amend" amd)
        ++ renderFlag (.valueFlag "-C" uco) ++ renderFlag (.boolFlag "-q" q2)
    ∧ formatPatchArgs since = ["git", "format-patch"] ++ [since]
    ∧ initArgs directory q3
      = ["git", "init"] ++ renderFlag (.boolFlag "-q" q3) ++ [directory]
    ∧ logArgs cmd_arg count pretty skip
      = ["git", "log"] ++ renderFlag (.combinedFlag "--pretty=" pretty)
        ++ renderFlag (.combinedFlag "-" (count.map toString))
        ++ renderFlag (.combinedFlag "--skip=" (skip.map toString))
        ++ (if pyTruthy cmd_arg then [cmd_arg.getD ""] else [])
    ∧ resetArgs cm hd q4
      = ["git", "reset"] ++ [cm] ++ renderFlag (.boolFlag "--hard" hd)
        ++ renderFlag (.boolFlag "-q" q4) := by
  refine ⟨rfl, ?_, ?_, ?_, rfl, ?_, ?_, ?_⟩
  · simp [amArgs, renderFlag]
  · simp [checkoutArgs, renderFlag]
  · rcases uco with _ | s
    · rcases msg with _ | m <;> simp [commitArgs, renderFlag, pyTruthy]
    · have hs : s ≠ "" := fun e => hu (by rw [e])
      rcases msg with _ | m <;> simp [commitArgs, renderFlag, pyTruthy, hs]
  · simp [initArgs, renderFlag]
  · rcases pretty with _ | p
    · rcases count with _ | n <;> rcases skip with _ | k <;>
        simp [logArgs, renderFlag, pyTruthy]
    · have hs : p ≠ "" := fun e => hp (by rw [e])
      rcases count with _ | n <;> rcases skip with _ | k <;>
        simp [logArgs, renderFlag, pyTruthy, hs]
  · simp [resetArgs, renderFlag]

/-- Witness for C5 amended, at one concrete call per operation. -/
theorem flag_rendering_uniform_witness :
    addArgs "f.txt" = ["git", "add"] ++ ["f.txt"]
    ∧ amArgs ["p.patch"] true false true
      = ["git", "am"] ++ ["p.patch"] ++ renderFlag (.boolFlag "--3way" true)
        ++ renderFlag (.boolFlag "--resolved" false) ++ renderFlag (.boolFlag "-q" true)
    ∧ checkoutArgs "dev" true false
      = ["git", "checkout"] ++ renderFlag (.boolFlag "-b" true)
        ++ renderFlag (.boolFlag "-B" false) ++ ["dev"]
    ∧ commitArgs (some "msg") true false (some "HEAD") false
      = ["git", "commit"] ++ renderFlag (.valueFlag "-m" (some "msg"))
        ++ renderFlag (.boolFlag "-a" true) ++ renderFlag (.boolFlag "--amend" false)
        ++ renderFlag (.valueFlag "-C" (some "HEAD")) ++ renderFlag (.boolFlag "-q" false)
    ∧ formatPatchArgs "HEAD~2" = ["git", "format-patch"] ++ ["HEAD~2"]
    ∧ initArgs "d" true
      = ["git", "init"] ++ renderFlag (.boolFlag "-q" true) ++ ["d"]
    ∧ logArgs (some "ref") (some 3) (some "oneline") (some 2)
      = ["git", "log"] ++ renderFlag (.combinedFlag "--pretty=" (some "oneline"))
        ++ renderFlag (.combinedFlag "-" ((some (3 : Int)).map toString))
        ++ renderFlag (.combinedFlag "--skip=" ((some (2 : Int)).map toString))
        ++ (if pyTruthy (some "ref") then [(some "ref").getD ""] else [])
    ∧ resetArgs "HEAD~1" true false
      = ["git", "reset"] ++ ["HEAD~1"] ++ renderFlag (.boolFlag "--hard" true)
        ++ renderFlag (.boolFlag "-q" false) :=
  flag_rendering_uniform "f.txt" ["p.patch"] true false true "dev" true false
    (some "msg") true false (some "HEAD") false "HEAD~2" "d" true
    (some "ref") (some 3) (some "oneline") (some 2) "HEAD~1" true false
    (by decide) (by decide)

/-- Counterexample to C6 as stated: on stdout `" \n"` (one line holding
a single space) the code returns `[""]` — not the list of the non-empty
lines, which would be `[" "]` — and the returned list contains a blank
entry. -/
theorem format_patch_strip_counterexample :
    formatPatchFilenames " \n" = [""]
    ∧ ¬ formatPatchFilenames " \n"
        = (pySplit " \n" '\n').filter (fun line => line ≠ "")
    ∧ "" ∈ formatPatchFilenames " \n" := by
  decide

/-- C6 amended: on a zero exit, `format_patch` returns the ordered list
of the non-empty lines of the captured stdout, each stripped of
surrounding whitespace (so an all-whitespace line contributes an empty
entry); on the claim's concrete stdouts the results are
`["0001-a.patch", "0002-b.patch"]` and `[]`. -/
theorem format_patch_returns_stripped_nonempty_lines
    (env : Proc) (cwd since : String)
    (h : (env cwd (formatPatchArgs since)).1 = 0) :
    (format_patch env cwd since).1
      = Except.ok (((pySplit (env cwd (formatPatchArgs since)).2 '\n').filter
          (fun line => line ≠ "")).map pyStrip)
    ∧ formatPatchFilenames "0001-a.patch\n0002-b.patch\n"
      = ["0001-a.patch", "0002-b.patch"]
    ∧ formatPatchFilenames "" = [] := by
  refine ⟨?_, by decide, by decide⟩
  simp [format_patch, formatPatchFilenames, h]

/-- Witness for C6 amended on the claim's concrete stdout. -/
theorem format_patch_returns_stripped_nonempty_lines_witness :
    (format_patch (fun _ _ => ((0 : Int), "0001-a.patch\n0002-b.patch\n")) "/" "HEAD").1
      = Except.ok ["0001-a.patch", "0002-b.patch"]
    ∧ formatPatchFilenames "0001-a.patch\n0002-b.patch\n"
      = ["0001-a.patch", "0002-b.patch"]
    ∧ formatPatchFilenames "" = [] :=
  have h := format_patch_returns_stripped_nonempty_lines
    (fun _ _ => ((0 : Int), "0001-a.patch\n0002-b.patch\n")) "/" "HEAD" rfl
  ⟨h.1.trans (congrArg Except.ok (by decide)), h.2.1, h.2.2⟩
